import Mathlib

/-!
# Verification of the projetools risk-analysis engine

Shallow embedding of the Risk Behavior Analysis engine
(`src/lib/risk-analysis/calculations.ts`, the orchestrator
`analyzeRiskBehavior`, and the input validators) together with proofs of
the spec's testable properties.

Modelling conventions:
* JavaScript numbers are embedded as rationals (`ℚ`); every value the
  claims mention is exactly representable.
* JavaScript date parsing (`new Date(s).getTime()`) is embedded as an
  explicit parameter `parse : String → Option ℤ` returning the epoch
  milliseconds, or `none` for an invalid date (`NaN`).  Every theorem is
  proved for an arbitrary `parse`.
* JavaScript string truthiness (`if (s)`) is `s ≠ ""`.
* Mutation of the working risk copies during propagation is embedded as
  explicit state passing over the list of records; the aliasing aspect
  (which records the caller can observe being written) is treated in a
  separate heap model where references are list indices.
-/

namespace RiskAnalysis

/-! ## Data model (`src/lib/risk-analysis/types.ts`) -/

/-- `RiskRelation` from types.ts: an outgoing edge of the risk graph.
`strength` is optional with default `0.3` applied at use sites. -/
structure RiskRelation where
  riskId : String
  relationType : String
  strength : Option ℚ
deriving DecidableEq

/-- `Risk` from types.ts. -/
structure Risk where
  id : String
  title : String
  probability : ℚ
  timeImpactPercent : ℚ
  costImpactPercent : ℚ
  scopeImpactPercent : ℚ
  category : String
  trigger : String
  responsePlan : String
  relatedRisks : List RiskRelation
  affectedActivities : List String
deriving DecidableEq

/-- `Activity` from types.ts.  The TypeScript field `end` is embedded as
`endDate` (`end` is a Lean keyword).  `durationDays` and `baselineCost`
are the optional derived fields filled in by `enrichActivities`. -/
structure Activity where
  id : String
  title : String
  level : ℤ
  start : String
  endDate : String
  cost : ℚ
  durationDays : Option ℚ
  baselineCost : Option ℚ
deriving DecidableEq

/-- `Input` from types.ts. -/
structure Input where
  activities : List Activity
  risks : List Risk
deriving DecidableEq

/-- `Sensitivity` from types.ts. -/
structure Sensitivity where
  probabilitySensitivity : ℚ
  timeImpactSensitivity : ℚ
  costImpactSensitivity : ℚ
  scopeImpactSensitivity : ℚ
deriving DecidableEq

/-- `Recommendation` from types.ts (`ROI` is optional). -/
structure Recommendation where
  action : String
  roi : Option ℚ
deriving DecidableEq

/-- `RiskAnalysisOutput` from types.ts. -/
structure RiskAnalysisOutput where
  riskId : String
  title : String
  affectedDurationSum : ℚ
  affectedCostSum : ℚ
  addedDays : ℚ
  expectedTimeImpact : ℚ
  addedCost : ℚ
  expectedCostImpact : ℚ
  scopeChangeRatio : ℚ
  propagatedProbability : ℚ
  behaviorScore : ℚ
  sensitivity : Sensitivity
  recommendations : List Recommendation
deriving DecidableEq

/-- `CombinedScenario` from types.ts. -/
structure CombinedScenario where
  riskIds : List String
  combinedTimeImpactPercent : ℚ
  combinedCostImpactPercent : ℚ
  combinedExpectedTimeImpact : ℚ
  combinedExpectedCostImpact : ℚ
deriving DecidableEq

/-- `PropagationResult` from types.ts. -/
structure PropagationResult where
  riskId : String
  originalProbability : ℚ
  finalProbability : ℚ
  propagationPath : List String
deriving DecidableEq

/-- `ValidationError` from the validation module. -/
structure ValidationError where
  field : String
  message : String
deriving DecidableEq

/-! ## `calculations.ts` -/

/-- JavaScript `String.prototype.trim()`: drops leading and trailing
whitespace.  Embedded directly on the character list (rather than via
`String.trim`) so that concrete instances compute by kernel reduction;
the claims only distinguish all-whitespace strings from strings with a
non-whitespace character, on which the two agree. -/
def jsTrim (s : String) : String :=
  ⟨((s.data.dropWhile fun c => c.isWhitespace).reverse.dropWhile
      fun c => c.isWhitespace).reverse⟩

/-- `calculateDurationDays(start, end)`:
returns 0 when either string is empty or trims to empty, 0 when either
date fails to parse (`isNaN(getTime())`), otherwise
`Math.max(0, Math.ceil((end - start) / 86400000))` in calendar days. -/
def calculateDurationDays (parse : String → Option ℤ) (start endDate : String) : ℚ :=
  if start = "" ∨ endDate = "" ∨ jsTrim start = "" ∨ jsTrim endDate = "" then 0
  else
    match parse start, parse endDate with
    | some startTime, some endTime =>
        ((max 0 (Int.ceil ((((endTime - startTime : ℤ) : ℚ)) / (1000 * 60 * 60 * 24))) : ℤ) : ℚ)
    | _, _ => 0

/-- The map body of `enrichActivities`: `{...activity, durationDays, baselineCost: activity.cost}`
where `durationDays` is computed only for Level 2 activities with both
date strings non-empty (JS truthiness). -/
def enrichActivity (parse : String → Option ℤ) (activity : Activity) : Activity :=
  let durationDays : ℚ :=
    if activity.level = 2 ∧ activity.start ≠ "" ∧ activity.endDate ≠ "" then
      calculateDurationDays parse activity.start activity.endDate
    else 0
  { activity with durationDays := some durationDays, baselineCost := some activity.cost }

/-- `enrichActivities(activities)`: maps `enrichActivity` over the list. -/
def enrichActivities (parse : String → Option ℤ) (activities : List Activity) : List Activity :=
  activities.map (fun activity => enrichActivity parse activity)

/-- `getAffectedDurationSum(risk, activities)`: filters the affected
Level-2 activities, then sums `a.durationDays ?? calculateDurationDays(a.start, a.end)`
over those with non-empty date strings. -/
def getAffectedDurationSum (parse : String → Option ℤ) (risk : Risk)
    (activities : List Activity) : ℚ :=
  let affectedActivities := activities.filter fun a =>
    risk.affectedActivities.contains a.id && a.level == 2
  affectedActivities.foldl
    (fun sum a =>
      if a.level = 2 ∧ a.start ≠ "" ∧ a.endDate ≠ "" then
        sum + a.durationDays.getD (calculateDurationDays parse a.start a.endDate)
      else sum)
    0

/-- `getAffectedCostSum(risk, activities)`: sums `a.baselineCost ?? a.cost`
over the affected Level-2 activities. -/
def getAffectedCostSum (risk : Risk) (activities : List Activity) : ℚ :=
  let affectedActivities := activities.filter fun a =>
    risk.affectedActivities.contains a.id && a.level == 2
  affectedActivities.foldl (fun sum a => sum + a.baselineCost.getD a.cost) 0

/-- `calculateTimeImpact(risk, affectedDurationSum)`:
returns `(addedDays, expectedTimeImpact)`. -/
def calculateTimeImpact (risk : Risk) (affectedDurationSum : ℚ) : ℚ × ℚ :=
  let addedDays := affectedDurationSum * (risk.timeImpactPercent / 100)
  let expectedTimeImpact := addedDays * (risk.probability / 100)
  (addedDays, expectedTimeImpact)

/-- `calculateCostImpact(risk, affectedCostSum)`:
returns `(addedCost, expectedCostImpact)`. -/
def calculateCostImpact (risk : Risk) (affectedCostSum : ℚ) : ℚ × ℚ :=
  let addedCost := affectedCostSum * (risk.costImpactPercent / 100)
  let expectedCostImpact := addedCost * (risk.probability / 100)
  (addedCost, expectedCostImpact)

/-- `calculateScopeChangeRatio(risk)`. -/
def calculateScopeChangeRatio (risk : Risk) : ℚ :=
  risk.scopeImpactPercent / 100

/-- `calculateSensitivity(risk, affectedDurationSum, affectedCostSum,
expectedTimeImpact, expectedCostImpact)`:
`probabilitySensitivity` is guarded by `risk.probability > 0`. -/
def calculateSensitivity (risk : Risk) (affectedDurationSum affectedCostSum
    expectedTimeImpact expectedCostImpact : ℚ) : Sensitivity :=
  { probabilitySensitivity :=
      if risk.probability > 0 then expectedCostImpact / risk.probability else 0
    timeImpactSensitivity := affectedDurationSum / 100
    costImpactSensitivity := affectedCostSum / 100
    scopeImpactSensitivity := risk.scopeImpactPercent / 100 }

/-- Degree of one risk in the relation network: out-degree plus the
number of risks whose relation list targets it (the body of the `map`
inside `calculateDependencyCentrality`). -/
def riskDegree (r : Risk) (allRisks : List Risk) : ℚ :=
  (r.relatedRisks.length : ℚ) +
    ((allRisks.filter fun other =>
        other.relatedRisks.any fun rel => rel.riskId == r.id).length : ℚ)

/-- `calculateDependencyCentrality(risk, allRisks)`:
degree normalized by `Math.max(1, ...degrees) × 100`. -/
def calculateDependencyCentrality (risk : Risk) (allRisks : List Risk) : ℚ :=
  let degree := riskDegree risk allRisks
  let maxDegree := (allRisks.map fun r => riskDegree r allRisks).foldl max 1
  (degree / maxDegree) * 100

/-- `calculateTimeSensitivityFlag(risk, activities)`:
1 if any affected activity (any level) has `level == 1`, else 0. -/
def calculateTimeSensitivityFlag (risk : Risk) (activities : List Activity) : ℚ :=
  let affectedActivities := activities.filter fun a =>
    risk.affectedActivities.contains a.id
  if affectedActivities.any fun a => a.level == 1 then 1 else 0

/-- `calculateDetectabilityScore(risk)`:
`risk.trigger && risk.trigger.trim().length > 0 ? 1 : 0.5`. -/
def calculateDetectabilityScore (risk : Risk) : ℚ :=
  if risk.trigger ≠ "" ∧ jsTrim risk.trigger ≠ "" then 1 else 0.5

/-- `normalizeValue(value, maxValue)`. -/
def normalizeValue (value maxValue : ℚ) : ℚ :=
  if maxValue = 0 then 0 else (value / maxValue) * 100

/-- `calculateBehaviorScore(risk, expectedTimeImpact, expectedCostImpact,
allRisks, activities, maxExpectedTimeImpact, maxExpectedCostImpact)`:
the weighted blend, clamped to [0, 100]. -/
def calculateBehaviorScore (risk : Risk) (expectedTimeImpact expectedCostImpact : ℚ)
    (allRisks : List Risk) (activities : List Activity)
    (maxExpectedTimeImpact maxExpectedCostImpact : ℚ) : ℚ :=
  let normalizedTimeImpact := normalizeValue expectedTimeImpact maxExpectedTimeImpact
  let normalizedCostImpact := normalizeValue expectedCostImpact maxExpectedCostImpact
  let dependencyCentrality := calculateDependencyCentrality risk allRisks
  let timeSensitivityFlag := calculateTimeSensitivityFlag risk activities
  let detectabilityScore := calculateDetectabilityScore risk
  let behaviorScore :=
    0.35 * normalizedTimeImpact +
    0.25 * normalizedCostImpact +
    0.2 * dependencyCentrality +
    0.15 * timeSensitivityFlag * 100 -
    0.05 * detectabilityScore * 100
  max 0 (min 100 behaviorScore)

/-- `calculateSingleRisk(risk, activities, allRisks, maxExpectedTimeImpact,
maxExpectedCostImpact)`. -/
def calculateSingleRisk (parse : String → Option ℤ) (risk : Risk)
    (activities : List Activity) (allRisks : List Risk)
    (maxExpectedTimeImpact maxExpectedCostImpact : ℚ) : RiskAnalysisOutput :=
  let affectedDurationSum := getAffectedDurationSum parse risk activities
  let affectedCostSum := getAffectedCostSum risk activities
  let timeImpact := calculateTimeImpact risk affectedDurationSum
  let costImpact := calculateCostImpact risk affectedCostSum
  let scopeChangeRatio := calculateScopeChangeRatio risk
  let sensitivity := calculateSensitivity risk affectedDurationSum affectedCostSum
    timeImpact.2 costImpact.2
  let behaviorScore := calculateBehaviorScore risk timeImpact.2 costImpact.2
    allRisks activities maxExpectedTimeImpact maxExpectedCostImpact
  { riskId := risk.id
    title := risk.title
    affectedDurationSum := affectedDurationSum
    affectedCostSum := affectedCostSum
    addedDays := timeImpact.1
    expectedTimeImpact := timeImpact.2
    addedCost := costImpact.1
    expectedCostImpact := costImpact.2
    scopeChangeRatio := scopeChangeRatio
    propagatedProbability := risk.probability
    behaviorScore := behaviorScore
    sensitivity := sensitivity
    recommendations := [] }

/-- `calculateCombinedImpact(riskIds, risks, activities)`:
intersection of affected Level-2 activities; zeroed scenario when the
intersection is empty; otherwise capped percentage sums, average
probability and the multiplicative impact formulas. -/
def calculateCombinedImpact (parse : String → Option ℤ) (riskIds : List String)
    (risks : List Risk) (activities : List Activity) : CombinedScenario :=
  let selectedRisks := risks.filter fun r => riskIds.contains r.id
  let commonActivities := activities.filter fun a =>
    (selectedRisks.all fun r => r.affectedActivities.contains a.id) && a.level == 2
  if commonActivities.length = 0 then
    { riskIds := riskIds
      combinedTimeImpactPercent := 0
      combinedCostImpactPercent := 0
      combinedExpectedTimeImpact := 0
      combinedExpectedCostImpact := 0 }
  else
    let combinedTimeImpactPercent :=
      min 200 (selectedRisks.foldl (fun sum r => sum + r.timeImpactPercent) 0)
    let combinedCostImpactPercent :=
      min 200 (selectedRisks.foldl (fun sum r => sum + r.costImpactPercent) 0)
    let affectedDurationSum := commonActivities.foldl
      (fun sum a =>
        if a.level = 2 ∧ a.start ≠ "" ∧ a.endDate ≠ "" then
          sum + a.durationDays.getD (calculateDurationDays parse a.start a.endDate)
        else sum)
      0
    let affectedCostSum := commonActivities.foldl
      (fun sum a => sum + a.baselineCost.getD a.cost) 0
    let avgProbability :=
      (selectedRisks.foldl (fun sum r => sum + r.probability) 0) /
        (selectedRisks.length : ℚ)
    let combinedAddedDays := affectedDurationSum * (combinedTimeImpactPercent / 100)
    let combinedExpectedTimeImpact := combinedAddedDays * (avgProbability / 100)
    let combinedAddedCost := affectedCostSum * (combinedCostImpactPercent / 100)
    let combinedExpectedCostImpact := combinedAddedCost * (avgProbability / 100)
    { riskIds := riskIds
      combinedTimeImpactPercent := combinedTimeImpactPercent
      combinedCostImpactPercent := combinedCostImpactPercent
      combinedExpectedTimeImpact := combinedExpectedTimeImpact
      combinedExpectedCostImpact := combinedExpectedCostImpact }

/-! ## Orchestrator propagation (Step 5 of `analyzeRiskBehavior`)

The orchestrator builds `propagatedRisks = input.risks.map(r => ({...r}))`
and runs three relaxation passes; for each input risk it looks up the
(first) working copy with the same id and, for every risk whose relation
list targets it, bumps the copy's probability by `strength × probability`
when that increase exceeds 0.1, capped at 100.  Here the working copies
are a `List Risk` state threaded through folds; the element written is
addressed by the index of the first id match, exactly as the JS object
reference returned by `Array.prototype.find`. -/

/-- The spread copy `{...r}` of a risk record.  On values a shallow copy
is the identity; the aliasing consequence (the copy, not the caller's
record, is mutated) is modelled separately on the heap embedding below. -/
def copyRisk (r : Risk) : Risk := r

/-- One iteration of the inner `for (const otherRisk of propagatedRisks)`
loop while processing the risk whose id is `targetId` and whose working
copy sits at index `k`: reads the element at index `j` as `otherRisk`,
looks for a relation targeting `targetId`, and updates index `k` when
the probability increase is significant. -/
def innerStep (targetId : String) (k : ℕ) (state : List Risk) (j : ℕ) : List Risk :=
  match state[j]? with
  | none => state
  | some otherRisk =>
    match otherRisk.relatedRisks.find? (fun rel => rel.riskId == targetId) with
    | none => state
    | some relation =>
      let strength := relation.strength.getD (3/10)
      let probabilityIncrease := strength * otherRisk.probability
      if probabilityIncrease > 1/10 then
        match state[k]? with
        | none => state
        | some currentRisk =>
            state.set k
              { currentRisk with
                probability := min 100 (currentRisk.probability + probabilityIncrease) }
      else state

/-- Processing one input risk inside a pass: find the working copy by id
(`propagatedRisks.find`, i.e. the first index with a matching id; the
`continue` on a failed lookup is the `none` branch) and run the inner
loop over every element of the state. -/
def processRisk (state : List Risk) (targetId : String) : List Risk :=
  match state.findIdx? (fun r => r.id == targetId) with
  | none => state
  | some k => (List.range state.length).foldl (innerStep targetId k) state

/-- One full pass: `for (const risk of input.risks)`, keyed by the input
risks' ids. -/
def propagationPass (ids : List String) (state : List Risk) : List Risk :=
  ids.foldl processRisk state

/-- `for (let pass = 0; pass < 3; pass++)` over the working copies. -/
def runPropagation (risks : List Risk) : List Risk :=
  let propagatedRisks := risks.map (fun r => copyRisk r)
  let ids := risks.map (fun r => r.id)
  (List.range 3).foldl (fun state _ => propagationPass ids state) propagatedRisks

/-- The `propagationResults` array assembled after the passes: for each
input risk, look up its working copy by id and emit original/final
probabilities with an empty path (risks whose lookup fails are skipped,
mirroring the `if (propagated)` guard). -/
def analyzePropagationResults (risks : List Risk) : List PropagationResult :=
  let propagatedRisks := runPropagation risks
  risks.filterMap fun risk =>
    (propagatedRisks.find? fun r => r.id == risk.id).map fun propagated =>
      { riskId := risk.id
        originalProbability := risk.probability
        finalProbability := propagated.probability
        propagationPath := [] }

/-- Relation between the initial working copies and any later state of
the relaxation: same length, per-index unchanged id, probability moved
only upward, and probability at most 100.  This is the invariant
maintained by every single mutation of the propagation loops. -/
@[reducible] def ProbEvolved (orig cur : List Risk) : Prop :=
  cur.length = orig.length ∧
  ∀ (j : ℕ) (a b : Risk), orig[j]? = some a → cur[j]? = some b →
    b.id = a.id ∧ a.probability ≤ b.probability ∧ b.probability ≤ 100

/-! ## Validators (`validation.ts`) -/

/-- `validateActivity(activity)`: the pushes of the source in order.  The
date check `!activity.start` is JS truthiness, hence `= ""` (no trim);
the chronology check parses both dates and an invalid date (`NaN`)
compares false, hence the `none` branches produce no error. -/
def validateActivity (parse : String → Option ℤ) (activity : Activity) :
    List ValidationError :=
  (if activity.id = "" ∨ jsTrim activity.id = "" then
    [{ field := "id", message := "Activity ID is required" }] else []) ++
  (if activity.title = "" ∨ jsTrim activity.title = "" then
    [{ field := "title", message := "Activity title is required" }] else []) ++
  (if activity.start = "" then
    [{ field := "start", message := "Start date is required" }] else []) ++
  (if activity.endDate = "" then
    [{ field := "end", message := "End date is required" }] else []) ++
  (if activity.start ≠ "" ∧ activity.endDate ≠ "" then
    match parse activity.start, parse activity.endDate with
    | some startDate, some endDate =>
        if endDate < startDate then
          [{ field := "end", message := "End date must be >= start date" }]
        else []
    | _, _ => []
   else []) ++
  (if activity.cost < 0 then
    [{ field := "cost", message := "Cost must be >= 0" }] else []) ++
  (if activity.level ≠ 1 ∧ activity.level ≠ 2 then
    [{ field := "level", message := "Level must be 1 or 2" }] else [])

/-- `validateRisk(risk, allActivityIds)`: the pushes of the source in
order; the per-element pushes of the two `for` loops become
`filterMap`s. -/
def validateRisk (risk : Risk) (allActivityIds : List String) : List ValidationError :=
  (if risk.id = "" ∨ jsTrim risk.id = "" then
    [{ field := "id", message := "Risk ID is required" }] else []) ++
  (if risk.title = "" ∨ jsTrim risk.title = "" then
    [{ field := "title", message := "Risk title is required" }] else []) ++
  (if risk.probability < 0 ∨ risk.probability > 100 then
    [{ field := "probability", message := "Probability must be between 0 and 100" }]
   else []) ++
  (if risk.timeImpactPercent < 0 then
    [{ field := "timeImpactPercent", message := "Time impact must be >= 0" }] else []) ++
  (if risk.costImpactPercent < 0 then
    [{ field := "costImpactPercent", message := "Cost impact must be >= 0" }] else []) ++
  (risk.affectedActivities.filterMap fun activityId =>
    if allActivityIds.contains activityId then none
    else some { field := "affectedActivities"
                message := "Activity " ++ activityId ++ " does not exist" }) ++
  (risk.relatedRisks.filterMap fun relation =>
    match relation.strength with
    | some s =>
        if s < 0 ∨ s > 1 then
          some { field := "relatedRisks"
                 message := "Relation strength must be between 0 and 1 for " ++
                   relation.riskId }
        else none
    | none => none)

/-- The activity loop of `validateInput`: pushes each activity's errors,
then a duplicate-id error when the id was already in the growing set
(`activityIds.has` before `add`). -/
def validateActivitiesLoop (parse : String → Option ℤ) :
    List Activity → List String → List ValidationError
  | [], _ => []
  | activity :: rest, seen =>
      validateActivity parse activity ++
      (if seen.contains activity.id then
        [{ field := "activities", message := "Duplicate activity ID: " ++ activity.id }]
       else []) ++
      validateActivitiesLoop parse rest
        (if seen.contains activity.id then seen else seen ++ [activity.id])

/-- The final contents of the `activityIds` set after the activity loop
(`Array.from(activityIds)`): ids in first-occurrence order. -/
def collectActivityIds : List Activity → List String → List String
  | [], seen => seen
  | activity :: rest, seen =>
      collectActivityIds rest
        (if seen.contains activity.id then seen else seen ++ [activity.id])

/-- The risk loop of `validateInput`: each risk's errors, a duplicate-id
error, and the must-have-one-affected-activity error. -/
def validateRisksLoop (allActivityIds : List String) :
    List Risk → List String → List ValidationError
  | [], _ => []
  | risk :: rest, seen =>
      validateRisk risk allActivityIds ++
      (if seen.contains risk.id then
        [{ field := "risks", message := "Duplicate risk ID: " ++ risk.id }]
       else []) ++
      (if risk.affectedActivities.length = 0 then
        [{ field := "risks"
           message := "Risk " ++ risk.id ++ " must have at least one affected activity" }]
       else []) ++
      validateRisksLoop allActivityIds rest
        (if seen.contains risk.id then seen else seen ++ [risk.id])

/-- `validateInput(input)`: emptiness checks, then the activity loop,
then the risk loop against the collected activity ids. -/
def validateInput (parse : String → Option ℤ) (input : Input) : List ValidationError :=
  (if input.activities.length = 0 then
    [{ field := "activities", message := "At least one activity is required" }] else []) ++
  (if input.risks.length = 0 then
    [{ field := "risks", message := "At least one risk is required" }] else []) ++
  validateActivitiesLoop parse input.activities [] ++
  validateRisksLoop (collectActivityIds input.activities []) input.risks []

/-! ## Heap model of the orchestrator's record writes

`analyzeRiskBehavior` touches Activity/Risk records through object
references.  The only statement in the whole engine that assigns to a
field of such a record is `currentRisk.probability = newProbability`
inside Step 5 (every other step reads the records and builds fresh
output objects).  To settle the frame claim we re-embed Step 1
(`enrichActivities`, which allocates fresh enriched records) and Step 5
with an explicit heap: a store is a list of records and a reference is
an index into it; `{...r}` appends a fresh record, and field assignment
through a reference is `List.set` at that index.  The caller's records
are the store entries below the initial length. -/

/-- Step 1 on the heap: `input.activities.map(a => ({...a, ...}))` reads
each referenced activity and appends its enriched copy, collecting the
fresh references (dangling references are skipped). -/
def heapEnrich (parse : String → Option ℤ) (astore : List Activity)
    (actRefs : List ℕ) : List Activity × List ℕ :=
  actRefs.foldl
    (fun acc i =>
      match acc.1[i]? with
      | some a => (acc.1 ++ [enrichActivity parse a], acc.2 ++ [acc.1.length])
      | none => acc)
    (astore, [])

/-- `input.risks.map(r => ({...r}))` on the heap: appends a shallow copy
of each referenced risk and collects the references to the copies. -/
def heapAllocCopies (store : List Risk) (inputRefs : List ℕ) : List Risk × List ℕ :=
  inputRefs.foldl
    (fun acc i =>
      match acc.1[i]? with
      | some r => (acc.1 ++ [copyRisk r], acc.2 ++ [acc.1.length])
      | none => acc)
    (store, [])

/-- Inner propagation loop on the heap: `otherRisk` is read through its
reference and the write `currentRisk.probability = ...` is a `set` at
`currentRef`. -/
def heapInnerStep (targetId : String) (currentRef : ℕ) (store : List Risk)
    (otherRef : ℕ) : List Risk :=
  match store[otherRef]? with
  | none => store
  | some otherRisk =>
    match otherRisk.relatedRisks.find? (fun rel => rel.riskId == targetId) with
    | none => store
    | some relation =>
      let strength := relation.strength.getD (3/10)
      let probabilityIncrease := strength * otherRisk.probability
      if probabilityIncrease > 1/10 then
        match store[currentRef]? with
        | none => store
        | some currentRisk =>
            store.set currentRef
              { currentRisk with
                probability := min 100 (currentRisk.probability + probabilityIncrease) }
      else store

/-- `propagatedRisks.find(r => r.id === risk.id)` on the heap, followed
by the inner loop over the working-copy references. -/
def heapProcessRisk (propagatedRefs : List ℕ) (store : List Risk)
    (targetId : String) : List Risk :=
  match propagatedRefs.find?
      (fun j => match store[j]? with
        | some r => r.id == targetId
        | none => false) with
  | none => store
  | some currentRef => propagatedRefs.foldl (heapInnerStep targetId currentRef) store

/-- One relaxation pass on the heap: the middle loop reads each input
risk's id through its reference. -/
def heapPass (propagatedRefs inputRefs : List ℕ) (store : List Risk) : List Risk :=
  inputRefs.foldl
    (fun st iref =>
      match st[iref]? with
      | none => st
      | some risk => heapProcessRisk propagatedRefs st risk.id)
    store

/-- Step 5 of `analyzeRiskBehavior` on the heap: allocate the working
copies, then run the three passes.  Returns the final store. -/
def heapPropagate (store : List Risk) (inputRefs : List ℕ) : List Risk :=
  let allocated := heapAllocCopies store inputRefs
  (List.range 3).foldl (fun st _ => heapPass allocated.2 inputRefs st) allocated.1

/-! ## Concrete fixtures used by witnesses and counterexamples -/

/-- A blank risk record; fixtures override the fields they care about. -/
def baseRisk : Risk :=
  { id := "R", title := "R", probability := 0, timeImpactPercent := 0,
    costImpactPercent := 0, scopeImpactPercent := 0, category := "",
    trigger := "", responsePlan := "", relatedRisks := [], affectedActivities := [] }

/-- A blank activity record. -/
def baseActivity : Activity :=
  { id := "A", title := "A", level := 2, start := "", endDate := "",
    cost := 0, durationDays := none, baselineCost := none }

/-- A date parser that rejects every string (all concrete statements
below are independent of the parser). -/
def parseNone : String → Option ℤ := fun _ => none

/-- C1 fixture: risk R1 with probability 80 listing R2 with strength 0.5. -/
def c1R1 : Risk :=
  { baseRisk with
    id := "R1"
    title := "R1"
    probability := 80
    relatedRisks := [{ riskId := "R2", relationType := "dependency", strength := some (1/2) }] }

/-- C1 fixture: risk R2 with a parameterized original probability and no
outgoing relations, so that no relation targets R1 and only the single
R1 → R2 relation targets R2. -/
def c1R2 (p : ℚ) : Risk := { baseRisk with id := "R2", title := "R2", probability := p }

/-- C3 counterexample fixture: two risks sharing the id "A". -/
def c3DupA : Risk := { baseRisk with id := "A", probability := 0 }

/-- C3 counterexample fixture: the second "A" risk, probability 50. -/
def c3DupB : Risk := { baseRisk with id := "A", probability := 50 }

/-- C3 witness fixture: the two-risk roster of the C1 scenario with
distinct ids and in-range probabilities. -/
def c3wRisks : List Risk := [c1R1, c1R2 10]

/-- C3 witness fixture: the R2 propagation row of the two-risk roster. -/
def c3wRow : PropagationResult :=
  { riskId := "R2", originalProbability := 10, finalProbability := 100, propagationPath := [] }

/-- C2 fixture: a Level-1 activity affected by the C2 risks, making the
time-sensitivity flag 1 so the two behavior scores are positive and the
strict comparison is visible. -/
def c2Activity : Activity :=
  { baseActivity with id := "M1", title := "M1", level := 1 }

/-- C2 fixture: the empty-trigger risk. -/
def c2RiskEmpty : Risk :=
  { baseRisk with
    id := "C2"
    title := "C2"
    trigger := ""
    affectedActivities := ["M1"] }

/-- C2 fixture: the same risk with a non-empty trigger. -/
def c2RiskFull : Risk := { c2RiskEmpty with trigger := "supplier misses checkpoint" }

/-- C6 fixture: enriched Level-2 activity A1 (10 days, cost 1000). -/
def c6A1 : Activity :=
  { baseActivity with
    id := "A1"
    title := "A1"
    level := 2
    start := "2024-01-01"
    endDate := "2024-01-11"
    cost := 1000
    durationDays := some 10
    baselineCost := some 1000 }

/-- C6 fixture: enriched Level-2 activity A2 (5 days, cost 500). -/
def c6A2 : Activity :=
  { baseActivity with
    id := "A2"
    title := "A2"
    level := 2
    start := "2024-02-01"
    endDate := "2024-02-06"
    cost := 500
    durationDays := some 5
    baselineCost := some 500 }

/-- C6 fixture: risk R1 (probability 50, time impact 20%, cost impact
10%) affecting A1 and A2. -/
def c6R1 : Risk :=
  { baseRisk with
    id := "R1"
    title := "R1"
    probability := 50
    timeImpactPercent := 20
    costImpactPercent := 10
    affectedActivities := ["A1", "A2"] }

/-- C7 witness fixture: two risks with disjoint affected-activity sets. -/
def c7RiskX : Risk :=
  { baseRisk with
    id := "X"
    title := "X"
    probability := 50
    timeImpactPercent := 10
    costImpactPercent := 10
    affectedActivities := ["A1"] }

/-- C7 witness fixture: the second risk, affecting only A2. -/
def c7RiskY : Risk :=
  { baseRisk with
    id := "Y"
    title := "Y"
    probability := 60
    timeImpactPercent := 20
    costImpactPercent := 5
    affectedActivities := ["A2"] }

/-- C8 witness fixture: a risk with probability 50. -/
def c8Risk : Risk := { baseRisk with id := "S", probability := 50 }

/-- C8 witness fixture: the same risk at probability 0. -/
def c8RiskZero : Risk := { baseRisk with id := "S0", probability := 0 }

/-- C10 witness fixture: a Level-1 activity with no dates, as the data
model prescribes for artifacts. -/
def c10Activity : Activity :=
  { baseActivity with
    id := "ART"
    title := "Artifact"
    level := 1
    start := ""
    endDate := "" }

/-- C10 witness fixture: an input holding the Level-1 activity. -/
def c10Input : Input :=
  { activities := [c10Activity], risks := [c6R1] }

/-- C5 witness fixture: a Level-1 activity (no dates). -/
def c5Act1 : Activity :=
  { baseActivity with id := "L1", title := "L1", level := 1 }

/-- C5 witness fixture: a Level-2 activity with unparsable dates. -/
def c5Act2 : Activity :=
  { baseActivity with
    id := "L2"
    title := "L2"
    level := 2
    start := "not-a-date"
    endDate := "also-not-a-date"
    cost := 7 }

/-- C9 witness fixture: a one-activity store. -/
def c9AStore : List Activity := [c6A1]

/-- C9 witness fixture: a risk store holding the C1 roster. -/
def c9RStore : List Risk := [c1R1, c1R2 10]

/-! ## Helper lemmas -/

/-- A property preserved by every step of a fold is preserved by the
whole fold. -/
theorem foldl_preserve {α β : Type _} {P : α → Prop} {f : α → β → α}
    (hf : ∀ s x, P s → P (f s x)) :
    ∀ (l : List β) (s : α), P s → P (l.foldl f s)
  | [], _, hs => hs
  | x :: l, s, hs => foldl_preserve hf l (f s x) (hf s x hs)

/-! ## Claim theorems -/

/-- C4: for every risk, expected impacts, roster, activity set and
maxima, `calculateBehaviorScore` returns a value in the closed interval
[0, 100] (the final clamp of the score formula). -/
theorem behaviorScore_in_range (risk : Risk) (expectedTimeImpact expectedCostImpact : ℚ)
    (allRisks : List Risk) (activities : List Activity)
    (maxExpectedTimeImpact maxExpectedCostImpact : ℚ) :
    0 ≤ calculateBehaviorScore risk expectedTimeImpact expectedCostImpact allRisks
        activities maxExpectedTimeImpact maxExpectedCostImpact ∧
    calculateBehaviorScore risk expectedTimeImpact expectedCostImpact allRisks
        activities maxExpectedTimeImpact maxExpectedCostImpact ≤ 100 := by
  constructor
  · exact le_max_left 0 _
  · exact max_le (by norm_num) (min_le_left 100 _)

/-- C8: `calculateSensitivity` divides the expected cost impact by the
probability only when the probability is positive and returns exactly 0
at zero probability, so the zero-probability case never performs the
division. -/
theorem calculateSensitivity_probability_guard (risk : Risk)
    (affectedDurationSum affectedCostSum expectedTimeImpact expectedCostImpact : ℚ) :
    (0 < risk.probability →
      (calculateSensitivity risk affectedDurationSum affectedCostSum
          expectedTimeImpact expectedCostImpact).probabilitySensitivity =
        expectedCostImpact / risk.probability) ∧
    (risk.probability = 0 →
      (calculateSensitivity risk affectedDurationSum affectedCostSum
          expectedTimeImpact expectedCostImpact).probabilitySensitivity = 0) := by
  constructor
  · intro h
    simp [calculateSensitivity, h]
  · intro h
    simp [calculateSensitivity, h]

/-- Witness for C8: at probability 50 the sensitivity is the division
`200 / 50`, and at probability 0 it is the fallback 0. -/
theorem calculateSensitivity_probability_guard_witness :
    (calculateSensitivity c8Risk 0 0 0 200).probabilitySensitivity = 200 / 50 ∧
    (calculateSensitivity c8RiskZero 0 0 0 200).probabilitySensitivity = 0 :=
  ⟨(calculateSensitivity_probability_guard c8Risk 0 0 0 200).1 (by decide),
   (calculateSensitivity_probability_guard c8RiskZero 0 0 0 200).2 (by decide)⟩

/-- C6: the spec's single-risk scenario — two enriched Level-2
activities (10 days / cost 1000 and 5 days / cost 500) and one risk with
probability 50, time impact 20% and cost impact 10% affecting both —
yields exactly the six values the spec lists, for every choice of
normalization maxima and date parser. -/
theorem calculateSingleRisk_scenario (parse : String → Option ℤ)
    (maxExpectedTimeImpact maxExpectedCostImpact : ℚ) :
    (calculateSingleRisk parse c6R1 [c6A1, c6A2] [c6R1]
        maxExpectedTimeImpact maxExpectedCostImpact).affectedDurationSum = 15 ∧
    (calculateSingleRisk parse c6R1 [c6A1, c6A2] [c6R1]
        maxExpectedTimeImpact maxExpectedCostImpact).affectedCostSum = 1500 ∧
    (calculateSingleRisk parse c6R1 [c6A1, c6A2] [c6R1]
        maxExpectedTimeImpact maxExpectedCostImpact).addedDays = 3 ∧
    (calculateSingleRisk parse c6R1 [c6A1, c6A2] [c6R1]
        maxExpectedTimeImpact maxExpectedCostImpact).expectedTimeImpact = 3/2 ∧
    (calculateSingleRisk parse c6R1 [c6A1, c6A2] [c6R1]
        maxExpectedTimeImpact maxExpectedCostImpact).addedCost = 150 ∧
    (calculateSingleRisk parse c6R1 [c6A1, c6A2] [c6R1]
        maxExpectedTimeImpact maxExpectedCostImpact).expectedCostImpact = 75 := by
  refine ⟨?_, ?_, ?_, ?_, ?_, ?_⟩ <;>
    simp +decide [calculateSingleRisk, getAffectedDurationSum, getAffectedCostSum,
      calculateTimeImpact, calculateCostImpact, c6R1, c6A1, c6A2, baseRisk, baseActivity] <;>
    norm_num

/-- Monotonicity of the [0,100] clamp used by the behavior score. -/
theorem clamp_mono {x y : ℚ} (h : x ≤ y) :
    max 0 (min 100 x) ≤ max 0 (min 100 y) :=
  max_le_max le_rfl (min_le_min le_rfl h)

/-- Strict monotonicity of the clamp away from its saturation points. -/
theorem clamp_strict {x y : ℚ} (hxy : x < y) (h1 : 0 < max 0 (min 100 y))
    (h2 : max 0 (min 100 x) < 100) :
    max 0 (min 100 x) < max 0 (min 100 y) := by
  simp only [max_def, min_def] at h1 h2 ⊢
  split_ifs at h1 h2 ⊢ <;> linarith

/-- C7 (as amended only in phrasing of the shared-activity hypothesis):
when at least two risks are selected and no activity is affected by all
of them (in particular when the affected sets are pairwise disjoint),
`calculateCombinedImpact` returns the zeroed scenario. -/
theorem calculateCombinedImpact_disjoint_zero (parse : String → Option ℤ)
    (riskIds : List String) (risks : List Risk) (activities : List Activity)
    (htwo : 2 ≤ (risks.filter fun r => riskIds.contains r.id).length)
    (hnocommon : ∀ a ∈ activities,
      ∃ r ∈ risks.filter (fun r => riskIds.contains r.id),
        a.id ∉ r.affectedActivities) :
    (calculateCombinedImpact parse riskIds risks activities).combinedTimeImpactPercent = 0 ∧
    (calculateCombinedImpact parse riskIds risks activities).combinedCostImpactPercent = 0 ∧
    (calculateCombinedImpact parse riskIds risks activities).combinedExpectedTimeImpact = 0 ∧
    (calculateCombinedImpact parse riskIds risks activities).combinedExpectedCostImpact = 0 := by
  have hempty : (activities.filter fun a =>
      ((risks.filter fun r => riskIds.contains r.id).all fun r =>
        r.affectedActivities.contains a.id) && a.level == 2) = [] := by
    rw [List.filter_eq_nil_iff]
    intro a ha
    obtain ⟨r, hr, hnot⟩ := hnocommon a ha
    simp only [Bool.and_eq_true, List.all_eq_true, not_and]
    intro hall _
    exact hnot (by simpa [List.elem_iff] using hall r hr)
  simp only [calculateCombinedImpact]
  rw [hempty]
  norm_num

/-- Witness for C7: risks X and Y affect disjoint activity sets, and the
combined scenario over them is zeroed. -/
theorem calculateCombinedImpact_disjoint_zero_witness :
    (calculateCombinedImpact parseNone ["X", "Y"] [c7RiskX, c7RiskY]
        [c6A1, c6A2]).combinedTimeImpactPercent = 0 ∧
    (calculateCombinedImpact parseNone ["X", "Y"] [c7RiskX, c7RiskY]
        [c6A1, c6A2]).combinedCostImpactPercent = 0 ∧
    (calculateCombinedImpact parseNone ["X", "Y"] [c7RiskX, c7RiskY]
        [c6A1, c6A2]).combinedExpectedTimeImpact = 0 ∧
    (calculateCombinedImpact parseNone ["X", "Y"] [c7RiskX, c7RiskY]
        [c6A1, c6A2]).combinedExpectedCostImpact = 0 :=
  calculateCombinedImpact_disjoint_zero parseNone ["X", "Y"] [c7RiskX, c7RiskY]
    [c6A1, c6A2] (by decide) (by decide)

/-- C2 counterexample: two risks identical except for the trigger (empty
versus non-empty), same activities, roster and maxima — the non-empty
trigger risk scores 10 and the empty-trigger risk scores 12.5, so the
non-empty-trigger behavior score is strictly LOWER, refuting the claimed
strictly-higher relation. -/
theorem behaviorScore_nonempty_trigger_not_higher :
    calculateBehaviorScore c2RiskFull 0 0 [c2RiskEmpty] [c2Activity] 1 1 <
      calculateBehaviorScore c2RiskEmpty 0 0 [c2RiskEmpty] [c2Activity] 1 1 := by
  have h1 : calculateBehaviorScore c2RiskFull 0 0 [c2RiskEmpty] [c2Activity] 1 1 = 10 := by
    simp +decide [calculateBehaviorScore, normalizeValue, calculateDependencyCentrality,
      riskDegree, calculateTimeSensitivityFlag, calculateDetectabilityScore,
      c2RiskFull, c2RiskEmpty, c2Activity, baseRisk, baseActivity]
    norm_num
  have h2 : calculateBehaviorScore c2RiskEmpty 0 0 [c2RiskEmpty] [c2Activity] 1 1 = 25/2 := by
    simp +decide [calculateBehaviorScore, normalizeValue, calculateDependencyCentrality,
      riskDegree, calculateTimeSensitivityFlag, calculateDetectabilityScore,
      c2RiskEmpty, c2Activity, baseRisk, baseActivity]
    norm_num
  rw [h1, h2]
  norm_num

/-- C2 as amended: for two risks identical in the fields the score reads
(id, relations, affected activities) and differing in trigger — empty
after trim versus non-empty after trim — the detectability scores are
0.5 and 1 respectively, and with the same expected impacts, roster,
activities and maxima the non-empty-trigger risk's behavior score is
less than or equal to the empty-trigger risk's, strictly lower whenever
the empty-trigger score is positive and the non-empty-trigger score is
below 100 (the negative detectability weight inverts the relation the
original claim stated). -/
theorem behaviorScore_trigger_penalty (rE rN : Risk)
    (expectedTimeImpact expectedCostImpact maxT maxC : ℚ)
    (allRisks : List Risk) (activities : List Activity)
    (hid : rN.id = rE.id) (hrel : rN.relatedRisks = rE.relatedRisks)
    (haff : rN.affectedActivities = rE.affectedActivities)
    (hE : jsTrim rE.trigger = "") (hN : jsTrim rN.trigger ≠ "") :
    calculateDetectabilityScore rE = 1/2 ∧
    calculateDetectabilityScore rN = 1 ∧
    calculateBehaviorScore rN expectedTimeImpact expectedCostImpact allRisks
        activities maxT maxC ≤
      calculateBehaviorScore rE expectedTimeImpact expectedCostImpact allRisks
        activities maxT maxC ∧
    (0 < calculateBehaviorScore rE expectedTimeImpact expectedCostImpact allRisks
        activities maxT maxC →
      calculateBehaviorScore rN expectedTimeImpact expectedCostImpact allRisks
          activities maxT maxC < 100 →
      calculateBehaviorScore rN expectedTimeImpact expectedCostImpact allRisks
          activities maxT maxC <
        calculateBehaviorScore rE expectedTimeImpact expectedCostImpact allRisks
          activities maxT maxC) := by
  have hdE : calculateDetectabilityScore rE = 1/2 := by
    rw [calculateDetectabilityScore, if_neg]
    · norm_num
    · rintro ⟨-, h2⟩
      exact h2 hE
  have hdN : calculateDetectabilityScore rN = 1 := by
    rw [calculateDetectabilityScore, if_pos]
    refine ⟨?_, hN⟩
    intro h
    apply hN
    rw [h]
    decide
  have hcent : calculateDependencyCentrality rN allRisks =
      calculateDependencyCentrality rE allRisks := by
    rw [calculateDependencyCentrality, calculateDependencyCentrality,
      riskDegree, riskDegree, hrel, hid]
  have hflag : calculateTimeSensitivityFlag rN activities =
      calculateTimeSensitivityFlag rE activities := by
    rw [calculateTimeSensitivityFlag, calculateTimeSensitivityFlag, haff]
  have hEeq : calculateBehaviorScore rE expectedTimeImpact expectedCostImpact
      allRisks activities maxT maxC =
      max 0 (min 100
        (0.35 * normalizeValue expectedTimeImpact maxT +
         0.25 * normalizeValue expectedCostImpact maxC +
         0.2 * calculateDependencyCentrality rE allRisks +
         0.15 * calculateTimeSensitivityFlag rE activities * 100 -
         0.05 * (1/2) * 100)) := by
    rw [calculateBehaviorScore, hdE]
  have hNeq : calculateBehaviorScore rN expectedTimeImpact expectedCostImpact
      allRisks activities maxT maxC =
      max 0 (min 100
        (0.35 * normalizeValue expectedTimeImpact maxT +
         0.25 * normalizeValue expectedCostImpact maxC +
         0.2 * calculateDependencyCentrality rE allRisks +
         0.15 * calculateTimeSensitivityFlag rE activities * 100 -
         0.05 * 1 * 100)) := by
    rw [calculateBehaviorScore, hdN, hcent, hflag]
  refine ⟨hdE, hdN, ?_, ?_⟩
  · rw [hEeq, hNeq]
    apply clamp_mono
    linarith
  · intro h1 h2
    rw [hEeq] at h1 ⊢
    rw [hNeq] at h2 ⊢
    apply clamp_strict _ h1 h2
    linarith

/-- Witness for C2: the concrete pair of risks satisfies every
hypothesis and exhibits detectability 0.5 versus 1 together with the
strictly lower score of the non-empty-trigger risk. -/
theorem behaviorScore_trigger_penalty_witness :
    calculateDetectabilityScore c2RiskEmpty = 1/2 ∧
    calculateDetectabilityScore c2RiskFull = 1 ∧
    calculateBehaviorScore c2RiskFull 0 0 [c2RiskEmpty] [c2Activity] 1 1 ≤
      calculateBehaviorScore c2RiskEmpty 0 0 [c2RiskEmpty] [c2Activity] 1 1 ∧
    calculateBehaviorScore c2RiskFull 0 0 [c2RiskEmpty] [c2Activity] 1 1 <
      calculateBehaviorScore c2RiskEmpty 0 0 [c2RiskEmpty] [c2Activity] 1 1 := by
  have h := behaviorScore_trigger_penalty c2RiskEmpty c2RiskFull 0 0 1 1
    [c2RiskEmpty] [c2Activity] rfl rfl rfl (by decide) (by decide)
  have h2 : calculateBehaviorScore c2RiskEmpty 0 0 [c2RiskEmpty] [c2Activity] 1 1 = 25/2 := by
    simp +decide [calculateBehaviorScore, normalizeValue, calculateDependencyCentrality,
      riskDegree, calculateTimeSensitivityFlag, calculateDetectabilityScore,
      c2RiskEmpty, c2Activity, baseRisk, baseActivity]
    norm_num
  have h1 : calculateBehaviorScore c2RiskFull 0 0 [c2RiskEmpty] [c2Activity] 1 1 = 10 := by
    simp +decide [calculateBehaviorScore, normalizeValue, calculateDependencyCentrality,
      riskDegree, calculateTimeSensitivityFlag, calculateDetectabilityScore,
      c2RiskFull, c2RiskEmpty, c2Activity, baseRisk, baseActivity]
    norm_num
  exact ⟨h.1, h.2.1, h.2.2.1,
    h.2.2.2 (by rw [h2]; norm_num) (by rw [h1]; norm_num)⟩

/-- C5: `enrichActivities` is idempotent — re-enriching its output
reproduces the whole enriched records, in particular the same
`durationDays` and `baselineCost` — and in the enriched output
`durationDays` is 0 for every Level-1 activity and for every Level-2
activity whose start or end date is empty or unparsable, for every date
parser. -/
theorem enrichActivities_idempotent_and_zero_durations (parse : String → Option ℤ)
    (activities : List Activity) :
    enrichActivities parse (enrichActivities parse activities) =
      enrichActivities parse activities ∧
    ∀ a ∈ enrichActivities parse activities,
      (a.level = 1 → a.durationDays = some 0) ∧
      (a.level = 2 →
        (a.start = "" ∨ a.endDate = "" ∨ parse a.start = none ∨ parse a.endDate = none) →
        a.durationDays = some 0) := by
  constructor
  · simp only [enrichActivities, List.map_map]
    congr 1
  · intro a ha
    simp only [enrichActivities] at ha
    obtain ⟨b, hb, rfl⟩ := List.mem_map.mp ha
    constructor
    · intro hlvl
      simp only [enrichActivity] at hlvl ⊢
      rw [if_neg]
      rintro ⟨h2, -⟩
      rw [hlvl] at h2
      exact absurd h2 (by norm_num)
    · intro _ hbad
      simp only [enrichActivity] at hbad ⊢
      by_cases hc : b.level = 2 ∧ b.start ≠ "" ∧ b.endDate ≠ ""
      · rw [if_pos hc]
        rcases hbad with h | h | h | h
        · exact absurd h hc.2.1
        · exact absurd h hc.2.2
        · rw [calculateDurationDays]
          split
          · rfl
          · rw [h]
        · rw [calculateDurationDays]
          split
          · rfl
          · rw [h]
            split <;> simp_all
      · rw [if_neg hc]

/-- Witness for C5: a Level-1 activity and a Level-2 activity with
unparsable dates both enrich to `durationDays = 0`, and re-enriching the
two-element list reproduces it. -/
theorem enrichActivities_idempotent_and_zero_durations_witness :
    enrichActivities parseNone (enrichActivities parseNone [c5Act1, c5Act2]) =
      enrichActivities parseNone [c5Act1, c5Act2] ∧
    (enrichActivity parseNone c5Act1).durationDays = some 0 ∧
    (enrichActivity parseNone c5Act2).durationDays = some 0 := by
  have h := enrichActivities_idempotent_and_zero_durations parseNone [c5Act1, c5Act2]
  refine ⟨h.1, ?_, ?_⟩
  · exact (h.2 (enrichActivity parseNone c5Act1)
      (List.mem_map_of_mem _ (List.mem_cons_self _ _))).1 (by decide)
  · exact (h.2 (enrichActivity parseNone c5Act2)
      (List.mem_map_of_mem _ (List.mem_cons_of_mem _ (List.mem_cons_self _ _)))).2
      (by decide) (Or.inr (Or.inr (Or.inl rfl)))

/-- Errors produced by one activity appear in the activity loop of
`validateInput`, whatever the already-seen id set is. -/
theorem mem_validateActivitiesLoop (parse : String → Option ℤ)
    (e : ValidationError) (a : Activity) :
    ∀ (acts : List Activity) (seen : List String),
      a ∈ acts → e ∈ validateActivity parse a →
      e ∈ validateActivitiesLoop parse acts seen := by
  intro acts
  induction acts with
  | nil =>
    intro seen h _
    cases h
  | cons b rest ih =>
    intro seen h he
    rw [validateActivitiesLoop]
    rcases List.mem_cons.mp h with rfl | h2
    · exact List.mem_append_left _ (List.mem_append_left _ he)
    · exact List.mem_append_right _ (ih _ h2 he)

/-- C10: `validateActivity` reports a missing start (respectively end)
date whenever the corresponding string is empty, with no regard to the
activity's level; consequently a Level-1 activity that conforms to the
data model (empty dates) makes `validateInput` report the input invalid
(the start error is among the returned errors). -/
theorem validateActivity_requires_dates (parse : String → Option ℤ) :
    (∀ a : Activity, a.start = "" →
      ({ field := "start", message := "Start date is required" } : ValidationError) ∈
        validateActivity parse a) ∧
    (∀ a : Activity, a.endDate = "" →
      ({ field := "end", message := "End date is required" } : ValidationError) ∈
        validateActivity parse a) ∧
    (∀ input : Input, ∀ a ∈ input.activities, a.level = 1 → a.start = "" →
      ({ field := "start", message := "Start date is required" } : ValidationError) ∈
        validateInput parse input) := by
  have hstart : ∀ a : Activity, a.start = "" →
      ({ field := "start", message := "Start date is required" } : ValidationError) ∈
        validateActivity parse a := by
    intro a h
    rw [validateActivity]
    simp only [List.mem_append]
    refine Or.inl (Or.inl (Or.inl (Or.inl (Or.inr ?_))))
    rw [if_pos h]
    exact List.mem_singleton_self _
  refine ⟨hstart, ?_, ?_⟩
  · intro a h
    rw [validateActivity]
    simp only [List.mem_append]
    refine Or.inl (Or.inl (Or.inl (Or.inr ?_)))
    rw [if_pos h]
    exact List.mem_singleton_self _
  · intro input a ha _ hempty
    rw [validateInput]
    simp only [List.mem_append]
    exact Or.inl (Or.inr
      (mem_validateActivitiesLoop parse _ a input.activities [] ha (hstart a hempty)))

/-- Witness for C10: the concrete Level-1 artifact with empty dates
receives both date errors from `validateActivity`, and the input holding
it is reported invalid by `validateInput`. -/
theorem validateActivity_requires_dates_witness :
    ({ field := "start", message := "Start date is required" } : ValidationError) ∈
      validateActivity parseNone c10Activity ∧
    ({ field := "end", message := "End date is required" } : ValidationError) ∈
      validateActivity parseNone c10Activity ∧
    ({ field := "start", message := "Start date is required" } : ValidationError) ∈
      validateInput parseNone c10Input := by
  have h := validateActivity_requires_dates parseNone
  exact ⟨h.1 c10Activity rfl, h.2.1 c10Activity rfl,
    h.2.2 c10Input c10Activity (by decide) (by decide) rfl⟩

/-! ## Monotonicity of the roster-wide relaxation (C3) and the
propagation scenario (C1) -/

/-- The initial state evolves from itself when every probability is at
most 100. -/
theorem probEvolved_refl (l : List Risk) (h : ∀ r ∈ l, r.probability ≤ 100) :
    ProbEvolved l l := by
  refine ⟨rfl, ?_⟩
  intro j a b ha hb
  rw [ha] at hb
  obtain rfl := Option.some_inj.mp hb
  exact ⟨rfl, le_refl _, h a (List.getElem?_mem ha)⟩

/-- One inner-loop iteration preserves `ProbEvolved`: it either leaves
the state unchanged or raises one probability, capping it at 100. -/
theorem innerStep_evolved {orig s : List Risk} (tid : String) (k j : ℕ)
    (h : ProbEvolved orig s) : ProbEvolved orig (innerStep tid k s j) := by
  unfold innerStep
  cases hj : s[j]? with
  | none => simp only [hj]; exact h
  | some otherRisk =>
    simp only [hj]
    cases hfind : otherRisk.relatedRisks.find? (fun rel => rel.riskId == tid) with
    | none => simp only [hfind]; exact h
    | some relation =>
      simp only [hfind]
      by_cases hinc : relation.strength.getD (3/10) * otherRisk.probability > 1/10
      · rw [if_pos hinc]
        cases hk : s[k]? with
        | none => simp only [hk]; exact h
        | some currentRisk =>
          simp only [hk]
          obtain ⟨hlen, hrest⟩ := h
          have hkl : k < s.length := (List.getElem?_eq_some_iff.mp hk).1
          refine ⟨(List.length_set _ _ _).trans hlen, ?_⟩
          intro j2 a b ha hb
          by_cases hjk : j2 = k
          · subst hjk
            rw [List.getElem?_set_self hkl] at hb
            obtain rfl := Option.some_inj.mp hb.symm
            obtain ⟨hid, hle, hub⟩ := hrest j2 a currentRisk ha hk
            have hpos : (0:ℚ) < relation.strength.getD (3/10) * otherRisk.probability :=
              lt_trans (by norm_num) hinc
            exact ⟨hid, le_min (hle.trans hub) (by linarith), min_le_left _ _⟩
          · rw [List.getElem?_set_ne (fun heq => hjk heq.symm)] at hb
            exact hrest j2 a b ha hb
      · rw [if_neg hinc]
        exact h

/-- Processing one input risk preserves `ProbEvolved`. -/
theorem processRisk_evolved {orig s : List Risk} (tid : String)
    (h : ProbEvolved orig s) : ProbEvolved orig (processRisk s tid) := by
  unfold processRisk
  cases hfi : s.findIdx? (fun r => r.id == tid) with
  | none => simp only [hfi]; exact h
  | some k =>
    simp only [hfi]
    exact foldl_preserve (fun st x hst => innerStep_evolved tid k x hst)
      (List.range s.length) s h

/-- A whole relaxation pass preserves `ProbEvolved`. -/
theorem propagationPass_evolved {orig s : List Risk} (ids : List String)
    (h : ProbEvolved orig s) : ProbEvolved orig (propagationPass ids s) :=
  foldl_preserve (fun st tid hst => processRisk_evolved tid hst) ids s h

/-- After the three passes the working copies have evolved from the
input roster. -/
theorem runPropagation_evolved (risks : List Risk)
    (h : ∀ r ∈ risks, r.probability ≤ 100) :
    ProbEvolved risks (runPropagation risks) := by
  unfold runPropagation
  have hcopy : risks.map (fun r => copyRisk r) = risks := by
    simp [copyRisk]
  rw [hcopy]
  exact foldl_preserve (fun st x hst => propagationPass_evolved _ hst)
    (List.range 3) risks (probEvolved_refl risks h)

/-- One relaxation pass over the C1 roster: R1 is untouched (nothing
targets it) and R2 gains `0.5 × 80 = 40`, capped at 100. -/
theorem c1_pass (q : ℚ) :
    propagationPass ["R1", "R2"] [c1R1, c1R2 q] = [c1R1, c1R2 (min 100 (q + 40))] := by
  simp +decide [propagationPass, processRisk, innerStep, c1R1, c1R2, baseRisk,
    List.findIdx?_cons, List.range_succ]
  norm_num

/-- The three passes over the C1 roster add 40 to R2 three times, each
time capped at 100. -/
theorem c1_run (p : ℚ) :
    runPropagation [c1R1, c1R2 p] =
      [c1R1, c1R2 (min 100 (min 100 (min 100 (p + 40) + 40) + 40))] := by
  have hids : [c1R1, c1R2 p].map (fun r => r.id) = ["R1", "R2"] := by
    simp [c1R1, c1R2, baseRisk]
  have hcopy : [c1R1, c1R2 p].map (fun r => copyRisk r) = [c1R1, c1R2 p] := by
    simp [copyRisk]
  have hr3 : List.range 3 = [0, 1, 2] := by decide
  simp only [runPropagation, hids, hcopy]
  rw [hr3]
  simp only [List.foldl_cons, List.foldl_nil]
  rw [c1_pass, c1_pass, c1_pass]

/-- The propagation results of the C1 roster: R1 keeps probability 80
and R2 ends at exactly 100 for every original probability in [0, 100]. -/
theorem c1_results (p : ℚ) (h0 : 0 ≤ p) (h1 : p ≤ 100) :
    analyzePropagationResults [c1R1, c1R2 p] =
      [{ riskId := "R1", originalProbability := 80, finalProbability := 80,
         propagationPath := [] },
       { riskId := "R2", originalProbability := p, finalProbability := 100,
         propagationPath := [] }] := by
  have hfinal : min 100 (min 100 (min 100 (p + 40) + 40) + 40) = 100 := by
    rcases le_total (p + 40) 100 with hc1 | hc1
    · rw [min_eq_right hc1]
      rcases le_total (p + 40 + 40) 100 with hc2 | hc2
      · rw [min_eq_right hc2]
        exact min_eq_left (by linarith)
      · rw [min_eq_left hc2]
        norm_num [min_def]
    · rw [min_eq_left hc1]
      norm_num [min_def]
  unfold analyzePropagationResults
  rw [c1_run, hfinal]
  simp +decide [c1R1, c1R2, baseRisk]

/-- C3 counterexample: an input whose risks all have probability in
[0, 100] but share the id "A".  The by-id lookup used to assemble the
propagation results resolves both input risks to the FIRST working copy
(probability 0), so the result row for the second risk (original
probability 50) reports final probability 0 — strictly below its
original probability, refuting the claim as stated over all inputs with
in-range probabilities. -/
theorem propagation_monotone_fails_on_duplicate_ids :
    ((0:ℚ) ≤ 0 ∧ (0:ℚ) ≤ 100 ∧ (0:ℚ) ≤ 50 ∧ (50:ℚ) ≤ 100) ∧
    (analyzePropagationResults [c3DupA, c3DupB])[1]? =
      some { riskId := "A", originalProbability := 50, finalProbability := 0,
             propagationPath := [] } ∧
    ¬ ((50:ℚ) ≤ 0) := by
  refine ⟨by norm_num, ?_, by norm_num⟩
  decide

/-- C3 as amended: for every input whose risks have pairwise-distinct
ids and probabilities in [0, 100], every propagation result produced by
the orchestrator satisfies
`originalProbability ≤ finalProbability ≤ 100`.  (The duplicate-id
counterexample forces the distinctness hypothesis, which the spec's
data-model invariant already demands.) -/
theorem propagation_monotone_of_nodup (risks : List Risk)
    (hids : (risks.map (fun r => r.id)).Nodup)
    (hprob : ∀ r ∈ risks, 0 ≤ r.probability ∧ r.probability ≤ 100) :
    ∀ res ∈ analyzePropagationResults risks,
      res.originalProbability ≤ res.finalProbability ∧ res.finalProbability ≤ 100 := by
  intro res hres
  have hev := runPropagation_evolved risks (fun r hr => (hprob r hr).2)
  unfold analyzePropagationResults at hres
  obtain ⟨risk, hrisk, hmap⟩ := List.mem_filterMap.mp hres
  obtain ⟨propagated, hfind, heq⟩ := Option.map_eq_some'.mp hmap
  have hpid : propagated.id = risk.id := by
    simpa using List.find?_some hfind
  have hpmem : propagated ∈ runPropagation risks := List.mem_of_find?_eq_some hfind
  obtain ⟨j, hj⟩ := List.mem_iff_getElem?.mp hpmem
  obtain ⟨i, hi⟩ := List.mem_iff_getElem?.mp hrisk
  have hjrun : j < (runPropagation risks).length := (List.getElem?_eq_some_iff.mp hj).1
  have hjlen : j < risks.length := by
    rw [← hev.1]
    exact hjrun
  have haj : risks[j]? = some risks[j] := List.getElem?_eq_getElem hjlen
  obtain ⟨hid, hle, hub⟩ := hev.2 j risks[j] propagated haj hj
  have hilen : i < risks.length := (List.getElem?_eq_some_iff.mp hi).1
  have hieq : risks[i] = risk := (List.getElem?_eq_some_iff.mp hi).2
  have hilen2 : i < (risks.map (fun r => r.id)).length := by simpa using hilen
  have hjlen2 : j < (risks.map (fun r => r.id)).length := by simpa using hjlen
  have h1 : (risks.map (fun r => r.id))[i] = (risks.map (fun r => r.id))[j] := by
    simp only [List.getElem_map]
    rw [hieq, ← hpid, hid]
  have hij : i = j := hids.getElem_inj_iff.mp h1
  have hra : risk = risks[j] := by
    subst hij
    exact hieq.symm
  subst heq
  refine ⟨?_, hub⟩
  show risk.probability ≤ propagated.probability
  rw [hra]
  exact hle

/-- Witness for C3: the two-risk roster R1/R2 (distinct ids, in-range
probabilities) contains the R2 propagation row, which satisfies the
monotonicity bounds. -/
theorem propagation_monotone_of_nodup_witness :
    c3wRow ∈ analyzePropagationResults c3wRisks ∧
    c3wRow.originalProbability ≤ c3wRow.finalProbability ∧
    c3wRow.finalProbability ≤ 100 := by
  have hmem : c3wRow ∈ analyzePropagationResults c3wRisks := by
    show _ ∈ analyzePropagationResults [c1R1, c1R2 10]
    rw [c1_results 10 (by norm_num) (by norm_num)]
    exact List.mem_cons_of_mem _ (List.mem_cons_self _ _)
  have h := propagation_monotone_of_nodup c3wRisks (by decide) (by decide) _ hmem
  exact ⟨hmem, h⟩

/-- C1 counterexample: with R2's original probability 10 (so that
`10 + 40 ≤ 100`), the claim demands a final probability of exactly 50,
but the roster-wide relaxation yields 100 — each of the three passes
adds `0.5 × 80 = 40` again, because R1's probability never changes. -/
theorem propagation_scenario_not_single_increment :
    (analyzePropagationResults [c1R1, c1R2 10])[1]? =
      some { riskId := "R2", originalProbability := 10, finalProbability := 100,
             propagationPath := [] } ∧
    (10:ℚ) + 40 ≤ 100 ∧ (100:ℚ) ≠ 10 + 40 := by
  refine ⟨?_, by norm_num, by norm_num⟩
  rw [c1_results 10 (by norm_num) (by norm_num)]
  rfl

/-- C1 as amended: in the R1 → R2 roster (strength 0.5, R1 probability
80, nothing else targeting R1 or R2), the roster-wide relaxation of
`analyzeRiskBehavior` yields final probability exactly 100 for R2 — not
original + 40 — for every original probability in [0, 100], because all
three passes re-apply the +40 increase. -/
theorem propagation_scenario_caps_at_100 (p : ℚ) (h0 : 0 ≤ p) (h1 : p ≤ 100) :
    (analyzePropagationResults [c1R1, c1R2 p])[1]? =
      some { riskId := "R2", originalProbability := p, finalProbability := 100,
             propagationPath := [] } := by
  rw [c1_results p h0 h1]
  rfl

/-- Witness for C1: the amended statement at original probability 25. -/
theorem propagation_scenario_caps_at_100_witness :
    (analyzePropagationResults [c1R1, c1R2 25])[1]? =
      some { riskId := "R2", originalProbability := 25, finalProbability := 100,
             propagationPath := [] } :=
  propagation_scenario_caps_at_100 25 (by norm_num) (by norm_num)

/-! ## Frame property of the orchestrator (C9) -/

/-- `{...r}` allocation only appends: the store grows and every
collected reference points past the original store. -/
theorem heapAllocCopies_spec (store : List Risk) (inputRefs : List ℕ) :
    (∃ t, (heapAllocCopies store inputRefs).1 = store ++ t) ∧
    ∀ r ∈ (heapAllocCopies store inputRefs).2, store.length ≤ r := by
  unfold heapAllocCopies
  refine @foldl_preserve (List Risk × List ℕ) ℕ
    (fun acc => (∃ t, acc.1 = store ++ t) ∧ ∀ r ∈ acc.2, store.length ≤ r)
    _ ?_ inputRefs (store, []) ⟨⟨[], (List.append_nil store).symm⟩, by simp⟩
  intro acc i hacc
  obtain ⟨⟨t, ht⟩, hrefs⟩ := hacc
  cases hi : acc.1[i]? with
  | none =>
    simp only [hi]
    exact ⟨⟨t, ht⟩, hrefs⟩
  | some r =>
    simp only [hi]
    refine ⟨⟨t ++ [copyRisk r], by rw [ht, List.append_assoc]⟩, ?_⟩
    intro x hx
    rcases List.mem_append.mp hx with hx | hx
    · exact hrefs x hx
    · rw [List.mem_singleton.mp hx, ht, List.length_append]
      exact Nat.le_add_right _ _

/-- One heap inner-loop iteration writes only at `currentRef`, which
lies past the caller's records. -/
theorem heapInnerStep_frame {store₀ s : List Risk} (tid : String)
    (cref oref : ℕ) (hcref : store₀.length ≤ cref)
    (h : ∀ i, i < store₀.length → s[i]? = store₀[i]?) :
    ∀ i, i < store₀.length → (heapInnerStep tid cref s oref)[i]? = store₀[i]? := by
  intro i hi
  unfold heapInnerStep
  cases h1 : s[oref]? with
  | none => simp only [h1]; exact h i hi
  | some otherRisk =>
    simp only [h1]
    cases h2 : otherRisk.relatedRisks.find? (fun rel => rel.riskId == tid) with
    | none => simp only [h2]; exact h i hi
    | some relation =>
      simp only [h2]
      by_cases hinc : relation.strength.getD (3/10) * otherRisk.probability > 1/10
      · rw [if_pos hinc]
        cases h3 : s[cref]? with
        | none => simp only [h3]; exact h i hi
        | some currentRisk =>
          simp only [h3]
          rw [List.getElem?_set_ne (by omega)]
          exact h i hi
      · rw [if_neg hinc]
        exact h i hi

/-- Processing one risk on the heap preserves the caller's records when
every working-copy reference lies past them. -/
theorem heapProcessRisk_frame {store₀ s : List Risk} (propRefs : List ℕ)
    (tid : String) (hrefs : ∀ r ∈ propRefs, store₀.length ≤ r)
    (h : ∀ i, i < store₀.length → s[i]? = store₀[i]?) :
    ∀ i, i < store₀.length → (heapProcessRisk propRefs s tid)[i]? = store₀[i]? := by
  unfold heapProcessRisk
  cases hf : propRefs.find?
      (fun j => match s[j]? with
        | some r => r.id == tid
        | none => false) with
  | none => simp only [hf]; exact h
  | some cref =>
    simp only [hf]
    have hcref : store₀.length ≤ cref := hrefs cref (List.mem_of_find?_eq_some hf)
    exact @foldl_preserve (List Risk) ℕ
      (fun st => ∀ i, i < store₀.length → st[i]? = store₀[i]?)
      (heapInnerStep tid cref)
      (fun st oref hst => heapInnerStep_frame tid cref oref hcref hst)
      propRefs s h

/-- A heap relaxation pass preserves the caller's records. -/
theorem heapPass_frame {store₀ s : List Risk} (propRefs inputRefs : List ℕ)
    (hrefs : ∀ r ∈ propRefs, store₀.length ≤ r)
    (h : ∀ i, i < store₀.length → s[i]? = store₀[i]?) :
    ∀ i, i < store₀.length → (heapPass propRefs inputRefs s)[i]? = store₀[i]? := by
  unfold heapPass
  refine @foldl_preserve (List Risk) ℕ
    (fun st => ∀ i, i < store₀.length → st[i]? = store₀[i]?)
    _ ?_ inputRefs s h
  intro st iref hst
  cases hr : st[iref]? with
  | none => simp only [hr]; exact hst
  | some risk =>
    simp only [hr]
    exact heapProcessRisk_frame propRefs risk.id hrefs hst

/-- The whole heap propagation (Step 5 of `analyzeRiskBehavior`) leaves
every caller record unchanged: the copies are appended past the caller's
store, and every probability write lands on a copy. -/
theorem heapPropagate_frame (store : List Risk) (inputRefs : List ℕ) :
    ∀ i, i < store.length → (heapPropagate store inputRefs)[i]? = store[i]? := by
  unfold heapPropagate
  obtain ⟨⟨t, ht⟩, hrefs⟩ := heapAllocCopies_spec store inputRefs
  have hinit : ∀ i, i < store.length →
      (heapAllocCopies store inputRefs).1[i]? = store[i]? := by
    intro i hi
    rw [ht, List.getElem?_append, if_pos hi]
  exact @foldl_preserve (List Risk) ℕ
    (fun st => ∀ i, i < store.length → st[i]? = store[i]?)
    (fun st _ => heapPass (heapAllocCopies store inputRefs).2 inputRefs st)
    (fun st x hst => heapPass_frame _ inputRefs hrefs hst)
    (List.range 3) (heapAllocCopies store inputRefs).1 hinit

/-- The heap enrichment (Step 1) only appends enriched copies, so the
caller's activity records are unchanged. -/
theorem heapEnrich_frame (parse : String → Option ℤ) (astore : List Activity)
    (actRefs : List ℕ) :
    ∀ i, i < astore.length → (heapEnrich parse astore actRefs).1[i]? = astore[i]? := by
  obtain ⟨t, ht⟩ : ∃ t, (heapEnrich parse astore actRefs).1 = astore ++ t := by
    unfold heapEnrich
    refine @foldl_preserve (List Activity × List ℕ) ℕ
      (fun acc => ∃ t, acc.1 = astore ++ t) _ ?_ actRefs (astore, [])
      ⟨[], (List.append_nil astore).symm⟩
    intro acc i hacc
    obtain ⟨t, ht⟩ := hacc
    cases hi : acc.1[i]? with
    | none => simp only [hi]; exact ⟨t, ht⟩
    | some a =>
      simp only [hi]
      exact ⟨t ++ [enrichActivity parse a], by rw [ht, List.append_assoc]⟩
  intro i hi
  rw [ht, List.getElem?_append, if_pos hi]

/-- C9: the two statement groups of `analyzeRiskBehavior` that touch
Activity/Risk records through references — Step 1's enrichment and Step
5's propagation, the only statements in the engine that allocate or
assign such records — leave every caller-supplied record (every store
entry below the initial length) unchanged.  All remaining steps read the
records and build fresh output objects. -/
theorem analyze_heap_frame (parse : String → Option ℤ) (astore : List Activity)
    (actRefs : List ℕ) (rstore : List Risk) (inputRefs : List ℕ) :
    (∀ i, i < astore.length → (heapEnrich parse astore actRefs).1[i]? = astore[i]?) ∧
    (∀ i, i < rstore.length → (heapPropagate rstore inputRefs)[i]? = rstore[i]?) :=
  ⟨heapEnrich_frame parse astore actRefs, heapPropagate_frame rstore inputRefs⟩

/-- Witness for C9: the concrete one-activity and two-risk stores (the
C1 roster, whose copies do get mutated to probability 100) keep their
caller records intact at every original index. -/
theorem analyze_heap_frame_witness :
    (heapEnrich parseNone c9AStore [0]).1[0]? = c9AStore[0]? ∧
    (heapPropagate c9RStore [0, 1])[0]? = c9RStore[0]? ∧
    (heapPropagate c9RStore [0, 1])[1]? = c9RStore[1]? := by
  have h := analyze_heap_frame parseNone c9AStore [0] c9RStore [0, 1]
  exact ⟨h.1 0 (by decide), h.2 0 (by decide), h.2 1 (by decide)⟩

end RiskAnalysis
